import Mathlib

/-!
Shallow embedding of the fastapi-todo-app task service
(src/app/models.py, src/app/schemas.py, src/app/crud.py,
src/app/routers/tasks.py) and proofs about its CRUD surface.

Conventions of the embedding:
* The database is a list of rows plus the Postgres id sequence
  (`tasks_id_seq`); `nextId` is the value the next `nextval` returns.
* Timestamps (`datetime.utcnow()` readings) are abstract clock readings
  modelled as `Nat`.  `create_task` calls the clock twice (once for
  `created_at`, once for `updated_at`), so it takes two readings.
* Nullable SQL columns and nullable/absent JSON fields are `Option`;
  a field of a Pydantic model that tracks *presence* (for
  `model_dump(exclude_unset=True)`) is `Option (Option _)`:
  `none` = field not sent, `some none` = field sent as `null`,
  `some (some v)` = field sent with value `v`.
* Committing a row whose `title` is NULL violates the `nullable=False`
  constraint of `models.Task.title`; the raised `IntegrityError`
  surfaces as a 500 and the transaction leaves the store unchanged.
-/

namespace models

/-- A stored row of the `tasks` table (src/app/models.py).
`title` is declared NOT NULL, `description` and `completed` are nullable
(`completed` has a client-side insert default of `False`). -/
structure Task where
  id : Nat
  title : Option String
  description : Option String
  completed : Option Bool
  created_at : Nat
  updated_at : Nat
deriving Repr, DecidableEq

end models

/-- The persisted state: the rows of the `tasks` table and the current
start value of the `tasks_id_seq` sequence (the id the next insert gets). -/
structure DB where
  rows : List models.Task
  nextId : Nat
deriving Repr, DecidableEq

/-- The raw JSON body of a create request, field by field.
Each field is presence-tracked: `none` = absent, `some none` = JSON null,
`some (some v)` = value `v`.  `completed` may appear in the body even
though `schemas.TaskCreate` declares no such field. -/
structure CreatePayload where
  title : Option (Option String)
  description : Option (Option String)
  completed : Option (Option Bool)
deriving Repr, DecidableEq

namespace schemas

/-- `schemas.TaskCreate`: `title: str` (required), `description:
Optional[str] = None`.  There is no `completed` field. -/
structure TaskCreate where
  title : String
  description : Option String
deriving Repr, DecidableEq

/-- Pydantic validation of a create body against `schemas.TaskCreate`:
`title` must be present and a string (any string, no length or
non-emptiness check); `description` may be absent, `null`, or a string;
an extra `completed` member is ignored (Pydantic's default is to ignore
unknown fields).  `none` is a 400/422 validation failure. -/
def parseTaskCreate (p : CreatePayload) : Option TaskCreate :=
  match p.title with
  | some (some s) => some { title := s, description := p.description.getD none }
  | _ => none

/-- `schemas.TaskUpdate`: all three fields `Optional[... ] = None`,
presence-tracked so that `model_dump(exclude_unset=True)` can tell a
field sent as `null` apart from a field not sent at all.  Any
combination is accepted by the schema layer (no validation failure). -/
structure TaskUpdate where
  title : Option (Option String)
  description : Option (Option String)
  completed : Option (Option Bool)
deriving Repr, DecidableEq

/-- `schemas.TaskResponse`: every field required and non-null
(`description: str`, `completed: bool`). -/
structure TaskResponse where
  id : Nat
  title : String
  description : String
  completed : Bool
  created_at : Nat
  updated_at : Nat
deriving Repr, DecidableEq

/-- FastAPI's validation of a returned ORM row against
`schemas.TaskResponse` (orm_mode).  A row whose `title`, `description`
or `completed` is NULL does not fit the non-optional declarations and
validation fails (`none`), which FastAPI surfaces as a 500. -/
def TaskResponse.from_orm (t : models.Task) : Option TaskResponse :=
  match t.title, t.description, t.completed with
  | some ti, some d, some c =>
    some { id := t.id, title := ti, description := d, completed := c,
           created_at := t.created_at, updated_at := t.updated_at }
  | _, _, _ => none

/-- `schemas.TaskListResponse`: `{count, tasks}` envelope. -/
structure TaskListResponse where
  count : Nat
  tasks : List TaskResponse
deriving Repr, DecidableEq

end schemas

namespace crud

/-- `crud.create_task`: builds `models.Task(**task.model_dump())` (so
`title` and `description` come from the schema and `completed` takes
the column's insert default `False`), sets `created_at` and
`updated_at` from two successive `datetime.utcnow()` readings `t1`,
`t2`, assigns the sequence id, commits, and returns the stored row. -/
def create_task (db : DB) (task : schemas.TaskCreate) (t1 t2 : Nat) : models.Task × DB :=
  let db_task : models.Task :=
    { id := db.nextId, title := some task.title, description := task.description,
      completed := some false, created_at := t1, updated_at := t2 }
  (db_task, { rows := db.rows ++ [db_task], nextId := db.nextId + 1 })

/-- `crud.get_task`: `SELECT ... WHERE id = task_id`, first row or
`None`. -/
def get_task (db : DB) (task_id : Nat) : Option models.Task :=
  db.rows.find? (fun r => r.id == task_id)

/-- `crud.get_tasks`: `SELECT ... OFFSET skip LIMIT limit`. -/
def get_tasks (db : DB) (skip : Nat) (limit : Nat) : List models.Task :=
  (db.rows.drop skip).take limit

/-- Applying `task_update.model_dump(exclude_unset=True)` to a row with
`setattr`: a field that was not sent is skipped, a field that was sent
(including as `null`) overwrites the column. -/
def apply_update (row : models.Task) (u : schemas.TaskUpdate) : models.Task :=
  { row with
    title := u.title.getD row.title,
    description := u.description.getD row.description,
    completed := u.completed.getD row.completed }

/-- Outcome of `crud.update_task`: the row was absent, the commit raised
(NOT NULL constraint on `title`, transaction rolled back), or the
updated row was stored. -/
inductive UpdateResult where
  | notFound
  | storeFailure
  | ok (task : models.Task) (db : DB)
deriving Repr, DecidableEq

/-- `crud.update_task`: fetch the row; if present, overwrite exactly the
fields present in the payload, set `updated_at := utcnow()` (= `t`),
and commit.  A NULL `title` at commit time violates the column's
NOT NULL constraint and the commit fails. -/
def update_task (db : DB) (task_id : Nat) (task_update : schemas.TaskUpdate) (t : Nat) :
    UpdateResult :=
  match get_task db task_id with
  | none => .notFound
  | some db_task =>
    let row := { apply_update db_task task_update with updated_at := t }
    if row.title.isNone then .storeFailure
    else .ok row
      { db with rows := db.rows.map (fun r => if r.id == task_id then row else r) }

/-- `crud.delete_task`: fetch, delete if present; returns whether a row
was deleted, together with the resulting store. -/
def delete_task (db : DB) (task_id : Nat) : Bool × DB :=
  match get_task db task_id with
  | some _ => (true, { db with rows := db.rows.filter (fun r => r.id != task_id) })
  | none => (false, db)

/-- `crud.reset_task_id_sequence`:
`ALTER SEQUENCE tasks_id_seq RESTART WITH 1`. -/
def reset_task_id_sequence (db : DB) : DB :=
  { db with nextId := 1 }

end crud

/-- The raw `DELETE FROM tasks` statement executed by the reset
endpoint. -/
def delete_all_tasks (db : DB) : DB :=
  { db with rows := [] }

/-- HTTP outcome of an endpoint, carrying the store it leaves behind. -/
inductive Response where
  | notFound (db : DB)
  | validationFailure (db : DB)
  | serverError (db : DB)
  | okTask (status : Nat) (body : schemas.TaskResponse) (db : DB)
  | okList (body : schemas.TaskListResponse) (db : DB)
  | noContent (db : DB)
deriving Repr, DecidableEq

namespace routers

/-- `POST /tasks/` (routers/tasks.py `create_task`): validate the body
against `TaskCreate` (422 on failure, nothing inserted), insert via
`crud.create_task`, then render the committed row through
`TaskResponse` (a row that does not fit the response schema yields a
500, but the row is already committed). -/
def create_task (db : DB) (p : CreatePayload) (t1 t2 : Nat) : Response :=
  match schemas.parseTaskCreate p with
  | none => .validationFailure db
  | some tc =>
    let res := crud.create_task db tc t1 t2
    match schemas.TaskResponse.from_orm res.1 with
    | none => .serverError res.2
    | some r => .okTask 201 r res.2

/-- `GET /tasks/` (routers/tasks.py `list_tasks`): fetch the page and
return `{count: len(tasks), tasks}`; every returned row is rendered
through `TaskResponse`. -/
def list_tasks (db : DB) (skip : Nat) (limit : Nat) : Response :=
  let ts := crud.get_tasks db skip limit
  match ts.mapM schemas.TaskResponse.from_orm with
  | none => .serverError db
  | some rs => .okList { count := rs.length, tasks := rs } db

/-- `DELETE /tasks/reset` (routers/tasks.py `reset_tasks`):
`DELETE FROM tasks`, then `crud.reset_task_id_sequence`, then 204. -/
def reset_tasks (db : DB) : Response :=
  .noContent (crud.reset_task_id_sequence (delete_all_tasks db))

/-- `GET /tasks/{task_id}` (routers/tasks.py `read_task`): 404 if the
row is absent, else the row rendered through `TaskResponse`. -/
def read_task (db : DB) (task_id : Nat) : Response :=
  match crud.get_task db task_id with
  | none => .notFound db
  | some t =>
    match schemas.TaskResponse.from_orm t with
    | none => .serverError db
    | some r => .okTask 200 r db

/-- `PUT /tasks/{task_id}` (routers/tasks.py `update_task`): delegate to
`crud.update_task`; 404 if absent, 500 if the commit raised, else the
updated row rendered through `TaskResponse`. -/
def update_task (db : DB) (task_id : Nat) (task : schemas.TaskUpdate) (t : Nat) : Response :=
  match crud.update_task db task_id task t with
  | .notFound => .notFound db
  | .storeFailure => .serverError db
  | .ok row db' =>
    match schemas.TaskResponse.from_orm row with
    | none => .serverError db'
    | some r => .okTask 200 r db'

/-- `PATCH /tasks/{task_id}` (routers/tasks.py `patch_task`): fetch
first (404 if absent), rebuild the payload from
`task.dict(exclude_unset=True)` — the identity on the presence-tracked
payload — and delegate to `crud.update_task`. -/
def patch_task (db : DB) (task_id : Nat) (task : schemas.TaskUpdate) (t : Nat) : Response :=
  match crud.get_task db task_id with
  | none => .notFound db
  | some _ =>
    match crud.update_task db task_id task t with
    | .notFound => .notFound db
    | .storeFailure => .serverError db
    | .ok row db' =>
      match schemas.TaskResponse.from_orm row with
      | none => .serverError db'
      | some r => .okTask 200 r db'

/-- `DELETE /tasks/{task_id}` (routers/tasks.py `delete_task`): 204 if a
row was deleted, else 404. -/
def delete_task (db : DB) (task_id : Nat) : Response :=
  let res := crud.delete_task db task_id
  if res.1 then .noContent res.2 else .notFound db

end routers

/-- All `created_at`/`updated_at` pairs of stored rows are ordered
(the spec's timestamp invariant). -/
def timestampsOrdered (db : DB) : Prop :=
  ∀ r ∈ db.rows, r.created_at ≤ r.updated_at

/-- C1: Creating a task with only a title does store a row with that
title, `completed = false` and equal timestamps, but the committed
row's NULL `description` does not fit `TaskResponse.description : str`,
so the endpoint ends in a response-validation failure (500) instead of
the documented 201 with a null-safe description. -/
theorem create_title_only_fails_response_validation :
    routers.create_task ⟨[], 1⟩ ⟨some (some ("a")), none, none⟩ 5 5 =
      Response.serverError ⟨[⟨1, some ("a"), none, some false, 5, 5⟩], 2⟩ := rfl

/-- C4: The reset endpoint is delete-all followed by sequence-reset in
that order, the resulting store has zero rows, and the next created
task receives id 1. -/
theorem reset_empties_store_and_restarts_ids (db : DB)
    (tc : schemas.TaskCreate) (t1 t2 : Nat) :
    routers.reset_tasks db =
        Response.noContent (crud.reset_task_id_sequence (delete_all_tasks db))
      ∧ (crud.reset_task_id_sequence (delete_all_tasks db)).rows = []
      ∧ (crud.create_task (crud.reset_task_id_sequence (delete_all_tasks db)) tc t1 t2).1.id = 1 :=
  ⟨rfl, rfl, rfl⟩

/-- C5: A create body that supplies `completed: true` is accepted, but
`schemas.TaskCreate` has no `completed` field, so the value is dropped
and the stored row's flag is `false`, not the supplied `true`. -/
theorem create_ignores_supplied_completed :
    routers.create_task ⟨[], 1⟩
        ⟨some (some ("x")), some (some ("d")), some (some true)⟩ 0 0 =
      Response.okTask 201 ⟨1, "x", "d", false, 0, 0⟩
        ⟨[⟨1, some ("x"), some ("d"), some false, 0, 0⟩], 2⟩ := rfl

/-- C6 counterexample: a create body whose title is the empty string is
not rejected by schema validation; the request succeeds with 201 and a
row with empty title is inserted. -/
theorem empty_title_create_succeeds :
    routers.create_task ⟨[], 1⟩ ⟨some (some ("")), some (some ("d")), none⟩ 0 0 =
      Response.okTask 201 ⟨1, "", "d", false, 0, 0⟩
        ⟨[⟨1, some (""), some ("d"), some false, 0, 0⟩], 2⟩ := rfl

/-- C2: A partial update whose payload supplies only `{completed: true}`
sets the stored row's `completed` to `true` and `updated_at` to the
current clock reading, and leaves `title` and `description` at their
prior values; whenever the prior values differed, both fields really
change. -/
theorem patch_completed_only_frame (db : DB) (task_id : Nat)
    (row : models.Task) (t : Nat)
    (h : crud.get_task db task_id = some row)
    (ht : row.title.isNone = false) :
    ∃ row' db',
      crud.update_task db task_id ⟨none, none, some (some true)⟩ t =
          crud.UpdateResult.ok row' db'
        ∧ row'.completed = some true
        ∧ row'.updated_at = t
        ∧ row'.title = row.title
        ∧ row'.description = row.description
        ∧ (row.completed ≠ some true → row'.completed ≠ row.completed)
        ∧ (row.updated_at ≠ t → row'.updated_at ≠ row.updated_at) := by
  refine ⟨{ row with completed := some true, updated_at := t },
    { db with rows := db.rows.map (fun r =>
        if r.id == task_id then { row with completed := some true, updated_at := t }
        else r) }, ?_, rfl, rfl, rfl, rfl, ?_, ?_⟩
  · simp [crud.update_task, h, crud.apply_update, ht]
  · intro hne hc
    exact hne hc.symm
  · intro hne hc
    exact hne hc.symm

/-- C2 witness: instantiation on a concrete one-row store. -/
theorem patch_completed_only_frame_witness :
    ∃ row' db',
      crud.update_task ⟨[⟨1, some ("a"), some ("d"), some false, 0, 0⟩], 2⟩ 1
          ⟨none, none, some (some true)⟩ 5 = crud.UpdateResult.ok row' db'
        ∧ row'.completed = some true
        ∧ row'.updated_at = 5
        ∧ row'.title = some ("a")
        ∧ row'.description = some ("d")
        ∧ (some false ≠ some true → row'.completed ≠ some false)
        ∧ ((0 : Nat) ≠ 5 → row'.updated_at ≠ 0) :=
  patch_completed_only_frame ⟨[⟨1, some ("a"), some ("d"), some false, 0, 0⟩], 2⟩ 1
    ⟨1, some ("a"), some ("d"), some false, 0, 0⟩ 5 rfl rfl

/-- C3: For an id with no row in the store, get, full update, partial
update and delete all answer 404 (the crud layer answers `None`/`False`
without raising) and leave the store unchanged. -/
theorem missing_id_gives_404_and_unchanged_store (db : DB) (task_id : Nat)
    (u : schemas.TaskUpdate) (t : Nat)
    (h : crud.get_task db task_id = none) :
    routers.read_task db task_id = Response.notFound db
    ∧ routers.update_task db task_id u t = Response.notFound db
    ∧ routers.patch_task db task_id u t = Response.notFound db
    ∧ routers.delete_task db task_id = Response.notFound db
    ∧ crud.update_task db task_id u t = crud.UpdateResult.notFound
    ∧ crud.delete_task db task_id = (false, db) := by
  refine ⟨?_, ?_, ?_, ?_, ?_, ?_⟩ <;>
    simp [routers.read_task, routers.update_task, routers.patch_task,
      routers.delete_task, crud.update_task, crud.delete_task, h]

/-- C3 witness: instantiation on the empty store. -/
theorem missing_id_gives_404_witness :
    routers.read_task ⟨[], 1⟩ 7 = Response.notFound ⟨[], 1⟩
    ∧ routers.update_task ⟨[], 1⟩ 7 ⟨none, none, none⟩ 0 = Response.notFound ⟨[], 1⟩
    ∧ routers.patch_task ⟨[], 1⟩ 7 ⟨none, none, none⟩ 0 = Response.notFound ⟨[], 1⟩
    ∧ routers.delete_task ⟨[], 1⟩ 7 = Response.notFound ⟨[], 1⟩
    ∧ crud.update_task ⟨[], 1⟩ 7 ⟨none, none, none⟩ 0 = crud.UpdateResult.notFound
    ∧ crud.delete_task ⟨[], 1⟩ 7 = (false, ⟨[], 1⟩) :=
  missing_id_gives_404_and_unchanged_store ⟨[], 1⟩ 7 ⟨none, none, none⟩ 0 rfl

/-- C6 (amended): schema validation of a create body does not require a
non-empty title — an empty-string title is accepted and a row with
empty title is committed (never a 400); only a missing or
explicitly-null title is rejected by the schema layer. -/
theorem empty_title_accepted_missing_title_rejected (db : DB)
    (d : Option (Option String)) (c : Option (Option Bool)) (t1 t2 : Nat) :
    schemas.parseTaskCreate ⟨some (some ("")), d, c⟩ = some ⟨"", d.getD none⟩
    ∧ schemas.parseTaskCreate ⟨none, d, c⟩ = none
    ∧ schemas.parseTaskCreate ⟨some none, d, c⟩ = none
    ∧ (∀ db0 : DB,
        routers.create_task db ⟨some (some ("")), d, c⟩ t1 t2 ≠ Response.validationFailure db0)
    ∧ (crud.create_task db ⟨"", d.getD none⟩ t1 t2).1.title = some ("")
    ∧ (crud.create_task db ⟨"", d.getD none⟩ t1 t2).1
        ∈ (crud.create_task db ⟨"", d.getD none⟩ t1 t2).2.rows := by
  refine ⟨rfl, rfl, rfl, ?_, rfl, ?_⟩
  · intro db0
    simp only [routers.create_task, schemas.parseTaskCreate]
    cases hfo : schemas.TaskResponse.from_orm
        (crud.create_task db ⟨"", d.getD none⟩ t1 t2).1 <;> simp [hfo]
  · simp [crud.create_task]

/-- C6 witness: instantiation on the empty store with an absent
description. -/
theorem empty_title_accepted_witness :
    schemas.parseTaskCreate ⟨some (some ("")), none, none⟩ =
        some ⟨"", (none : Option (Option String)).getD none⟩
    ∧ schemas.parseTaskCreate ⟨none, none, none⟩ = none
    ∧ schemas.parseTaskCreate ⟨some none, none, none⟩ = none
    ∧ (∀ db0 : DB,
        routers.create_task ⟨[], 1⟩ ⟨some (some ("")), none, none⟩ 0 0 ≠
          Response.validationFailure db0)
    ∧ (crud.create_task ⟨[], 1⟩ ⟨"", (none : Option (Option String)).getD none⟩ 0 0).1.title
        = some ("")
    ∧ (crud.create_task ⟨[], 1⟩ ⟨"", (none : Option (Option String)).getD none⟩ 0 0).1
        ∈ (crud.create_task ⟨[], 1⟩ ⟨"", (none : Option (Option String)).getD none⟩ 0 0).2.rows :=
  empty_title_accepted_missing_title_rejected ⟨[], 1⟩ none none 0 0

/-- C7: Listing returns at most `limit` rows, the `i`-th returned row is
row `skip + i` of the store, and on an empty store `skip=0, limit=100`
answers `{count: 0, tasks: []}`. -/
theorem list_skips_and_limits (db : DB) (skip limit i n : Nat) :
    (crud.get_tasks db skip limit).length ≤ limit
    ∧ (crud.get_tasks db skip limit)[i]? =
        (if i < limit then db.rows[skip + i]? else none)
    ∧ routers.list_tasks ⟨[], n⟩ 0 100 = Response.okList ⟨0, []⟩ ⟨[], n⟩ := by
  refine ⟨List.length_take_le _ _, ?_, rfl⟩
  simp only [crud.get_tasks, List.getElem?_take, List.getElem?_drop]

/-- C7 witness: instantiation on a concrete two-row store. -/
theorem list_skips_and_limits_witness :
    (crud.get_tasks ⟨[⟨1, some ("a"), none, some false, 0, 0⟩,
        ⟨2, some ("b"), none, some false, 0, 0⟩], 3⟩ 1 5).length ≤ 5
    ∧ (crud.get_tasks ⟨[⟨1, some ("a"), none, some false, 0, 0⟩,
        ⟨2, some ("b"), none, some false, 0, 0⟩], 3⟩ 1 5)[0]? =
        (if 0 < 5 then
          (DB.mk [⟨1, some ("a"), none, some false, 0, 0⟩,
            ⟨2, some ("b"), none, some false, 0, 0⟩] 3).rows[1 + 0]? else none)
    ∧ routers.list_tasks ⟨[], 1⟩ 0 100 = Response.okList ⟨0, []⟩ ⟨[], 1⟩ :=
  list_skips_and_limits ⟨[⟨1, some ("a"), none, some false, 0, 0⟩,
    ⟨2, some ("b"), none, some false, 0, 0⟩], 3⟩ 1 5 0 1

/-- C8: In a well-formed store (every stored id is below the sequence
value), a get with the id returned by a create finds exactly the row
the create returned, equal in every field. -/
theorem create_then_get_roundtrip (db : DB) (tc : schemas.TaskCreate)
    (t1 t2 : Nat) (h : ∀ r ∈ db.rows, r.id < db.nextId) :
    crud.get_task (crud.create_task db tc t1 t2).2 (crud.create_task db tc t1 t2).1.id
      = some (crud.create_task db tc t1 t2).1 := by
  have hnone : db.rows.find? (fun r => r.id == db.nextId) = none := by
    rw [List.find?_eq_none]
    intro x hx
    simpa using Nat.ne_of_lt (h x hx)
  simp [crud.get_task, crud.create_task, List.find?_append, hnone, List.find?]

/-- C8 witness: instantiation on a concrete one-row store. -/
theorem create_then_get_roundtrip_witness :
    crud.get_task
        (crud.create_task ⟨[⟨1, some ("a"), none, some false, 0, 0⟩], 2⟩ ⟨"b", none⟩ 3 4).2
        (crud.create_task ⟨[⟨1, some ("a"), none, some false, 0, 0⟩], 2⟩ ⟨"b", none⟩ 3 4).1.id
      = some (crud.create_task ⟨[⟨1, some ("a"), none, some false, 0, 0⟩], 2⟩ ⟨"b", none⟩ 3 4).1 :=
  create_then_get_roundtrip ⟨[⟨1, some ("a"), none, some false, 0, 0⟩], 2⟩ ⟨"b", none⟩ 3 4
    (by decide)

/-- C9: If every stored row satisfies `created_at <= updated_at` and the
clock readings are monotone (the create's second reading is not before
its first; an update's reading is not before any stored `created_at`),
then create and (full or partial) update preserve the invariant. -/
theorem timestamps_invariant_preserved (db : DB) (tc : schemas.TaskCreate)
    (task_id : Nat) (u : schemas.TaskUpdate) (t1 t2 t : Nat)
    (hdb : timestampsOrdered db) (h12 : t1 ≤ t2)
    (hclock : ∀ r ∈ db.rows, r.created_at ≤ t) :
    timestampsOrdered (crud.create_task db tc t1 t2).2
    ∧ (∀ task db', crud.update_task db task_id u t = crud.UpdateResult.ok task db' →
        timestampsOrdered db') := by
  constructor
  · intro r hr
    simp only [crud.create_task, List.mem_append, List.mem_singleton] at hr
    rcases hr with hr | rfl
    · exact hdb r hr
    · exact h12
  · intro task db' heq
    rcases hget : crud.get_task db task_id with _ | db_task
    · simp [crud.update_task, hget] at heq
    · have hmem : db_task ∈ db.rows := List.mem_of_find?_eq_some hget
      simp only [crud.update_task, hget] at heq
      by_cases hif : ({ crud.apply_update db_task u with updated_at := t } :
          models.Task).title.isNone
      · rw [if_pos hif] at heq
        cases heq
      · rw [if_neg hif] at heq
        rcases heq with ⟨rfl, rfl⟩
        intro r hr
        rcases List.mem_map.mp hr with ⟨a, ha, rfl⟩
        by_cases hid : (a.id == task_id) = true
        · rw [if_pos hid]
          show db_task.created_at ≤ t
          exact hclock db_task hmem
        · rw [if_neg hid]
          exact hdb a ha

/-- C9 witness: instantiation on a concrete one-row store. -/
theorem timestamps_invariant_preserved_witness :
    timestampsOrdered (crud.create_task ⟨[⟨1, some ("a"), none, some false, 0, 1⟩], 2⟩
        ⟨"b", none⟩ 2 3).2
    ∧ (∀ task db',
        crud.update_task ⟨[⟨1, some ("a"), none, some false, 0, 1⟩], 2⟩ 1
            ⟨none, none, some (some true)⟩ 4 = crud.UpdateResult.ok task db' →
          timestampsOrdered db') :=
  timestamps_invariant_preserved ⟨[⟨1, some ("a"), none, some false, 0, 1⟩], 2⟩
    ⟨"b", none⟩ 1 ⟨none, none, some (some true)⟩ 2 3 4
    (by intro r hr; simp only [List.mem_singleton] at hr; subst hr; decide)
    (by decide) (by intro r hr; simp only [List.mem_singleton] at hr; subst hr; decide)

/-- C10: An update payload that supplies a field explicitly as `null` is
accepted by the schema layer (never a 400) and the `null` is written
into the row — only absent fields are skipped; an explicitly-null
`title` therefore reaches the store's NOT NULL constraint and the
commit fails (500), while an explicitly-null `description` is stored. -/
theorem explicit_null_update_reaches_store (db : DB) (task_id : Nat)
    (row : models.Task) (t : Nat)
    (h : crud.get_task db task_id = some row) :
    crud.update_task db task_id ⟨some none, none, none⟩ t = crud.UpdateResult.storeFailure
    ∧ (∀ db0 : DB,
        routers.update_task db task_id ⟨some none, none, none⟩ t ≠
          Response.validationFailure db0)
    ∧ (crud.apply_update row ⟨some none, none, none⟩).title = none
    ∧ (∀ u : schemas.TaskUpdate, u.title = none →
        (crud.apply_update row u).title = row.title)
    ∧ (row.title.isNone = false →
        ∃ row' db',
          crud.update_task db task_id ⟨none, some none, none⟩ t =
              crud.UpdateResult.ok row' db'
            ∧ row'.description = none ∧ row'.title = row.title) := by
  have hsf : crud.update_task db task_id ⟨some none, none, none⟩ t =
      crud.UpdateResult.storeFailure := by
    simp [crud.update_task, h, crud.apply_update]
  refine ⟨hsf, ?_, rfl, ?_, ?_⟩
  · intro db0
    simp [routers.update_task, hsf]
  · intro u hu
    simp [crud.apply_update, hu]
  · intro ht
    refine ⟨{ row with description := none, updated_at := t },
      { db with rows := db.rows.map (fun r =>
          if r.id == task_id then { row with description := none, updated_at := t }
          else r) }, ?_, rfl, rfl⟩
    simp [crud.update_task, h, crud.apply_update, ht]

/-- C10 witness: instantiation on a concrete one-row store. -/
theorem explicit_null_update_reaches_store_witness :
    crud.update_task ⟨[⟨1, some ("a"), some ("d"), some false, 0, 0⟩], 2⟩ 1
        ⟨some none, none, none⟩ 5 = crud.UpdateResult.storeFailure
    ∧ (∀ db0 : DB,
        routers.update_task ⟨[⟨1, some ("a"), some ("d"), some false, 0, 0⟩], 2⟩ 1
            ⟨some none, none, none⟩ 5 ≠ Response.validationFailure db0)
    ∧ (crud.apply_update ⟨1, some ("a"), some ("d"), some false, 0, 0⟩
        ⟨some none, none, none⟩).title = none
    ∧ (∀ u : schemas.TaskUpdate, u.title = none →
        (crud.apply_update ⟨1, some ("a"), some ("d"), some false, 0, 0⟩ u).title =
          (models.Task.mk 1 (some ("a")) (some ("d")) (some false) 0 0).title)
    ∧ ((models.Task.mk 1 (some ("a")) (some ("d")) (some false) 0 0).title.isNone = false →
        ∃ row' db',
          crud.update_task ⟨[⟨1, some ("a"), some ("d"), some false, 0, 0⟩], 2⟩ 1
              ⟨none, some none, none⟩ 5 = crud.UpdateResult.ok row' db'
            ∧ row'.description = none
            ∧ row'.title = (models.Task.mk 1 (some ("a")) (some ("d")) (some false) 0 0).title) :=
  explicit_null_update_reaches_store ⟨[⟨1, some ("a"), some ("d"), some false, 0, 0⟩], 2⟩ 1
    ⟨1, some ("a"), some ("d"), some false, 0, 0⟩ 5 rfl
